import Mathlib

/-!
Verification of the partfs library (disk abstraction, subdisk borrow registry,
MBR partition table, FAT12/FAT16 filesystems) against its specification.

The Rust sources are shallowly embedded: machine integers become `Nat`
(all the quantities involved are `usize`/`u8`/`u16`/`u32` values kept in
range by the code's own checks, with explicit wrapping where it matters),
fallible operations return `Except`, byte buffers are `List Nat`, the
contents of a backing disk is a function `Nat → Nat` from byte offset to
byte value, and a Rust panic is modelled as the `none` case of an `Option`
wrapped around the result.  The field `end` of the Rust structures is
renamed `stop` (`end` is a Lean keyword).
-/

namespace Partfs

/-- Permissions of a disk: a pair of booleans (read, write).  From
`src/lib.rs`, `struct Permissions`. -/
structure Permissions where
  read : Bool
  write : Bool
deriving DecidableEq, Repr

/-- `Permissions::read_only()` from `src/lib.rs`. -/
def Permissions.read_only : Permissions := ⟨true, false⟩

/-- `Permissions::write_only()` from `src/lib.rs`. -/
def Permissions.write_only : Permissions := ⟨false, true⟩

/-- `Permissions::read_write()` from `src/lib.rs`. -/
def Permissions.read_write : Permissions := ⟨true, true⟩

/-- The set expression of admissible sector sizes.  From `src/lib.rs`,
`enum SectorSize`. -/
inductive SectorSize where
  | any : SectorSize
  | allOf (l : List Nat) : SectorSize
  | anyExcept (l : List Nat) : SectorSize
  | inRanges (rs : List (Nat × Nat)) : SectorSize
  | anyExceptRanges (rs : List (Nat × Nat)) : SectorSize
deriving DecidableEq, Repr

/-- `SectorSize::is_supported` from `src/lib.rs`: evaluates the set
expression and additionally requires `sector_size <= disk_size`. -/
def SectorSize.is_supported (s : SectorSize) (sector_size disk_size : Nat) : Bool :=
  (match s with
    | .any => true
    | .allOf l => l.contains sector_size
    | .anyExcept l => !(l.contains sector_size)
    | .inRanges rs => rs.any fun r => decide (r.1 ≤ sector_size) && decide (sector_size < r.2)
    | .anyExceptRanges rs =>
        !(rs.any fun r => decide (r.1 ≤ sector_size) && decide (sector_size < r.2)))
  && decide (sector_size ≤ disk_size)

/-- Loop of the `AllOf` branch of `SectorSize::minimal_ge` from
`src/lib.rs`: scans the list, breaking as soon as the exact value is found,
otherwise keeping the smallest element above `sector_size`. -/
def minimalGeAllOf (sector_size : Nat) : List Nat → Option Nat → Option Nat
  | [], min => min
  | i :: rest, min =>
    if i = sector_size then some sector_size
    else if decide (i > sector_size) && (match min with | none => true | some m => decide (i < m))
    then minimalGeAllOf sector_size rest (some i)
    else minimalGeAllOf sector_size rest min

/-- Loop of the `AnyExcept` branch of `SectorSize::minimal_ge` from
`src/lib.rs`: walks the sorted exclusion list, bumping `min` past each
element equal to it. -/
def minimalGeAnyExcept : List Nat → Nat → Nat
  | [], min => min
  | i :: rest, min =>
    if i = min then minimalGeAnyExcept rest (min + 1)
    else if i > min then min
    else minimalGeAnyExcept rest min

/-- Loop of the `InRanges` branch of `SectorSize::minimal_ge` from
`src/lib.rs`. -/
def minimalGeInRanges (sector_size : Nat) : List (Nat × Nat) → Option Nat → Option Nat
  | [], min => min
  | (start, stop) :: rest, min =>
    if stop ≤ sector_size then minimalGeInRanges sector_size rest min
    else
      let v := if sector_size < start then start else sector_size
      if (match min with | none => true | some m => decide (v < m))
      then minimalGeInRanges sector_size rest (some v)
      else minimalGeInRanges sector_size rest min

/-- One pass of the fixpoint loop of the `AnyExceptRanges` branch of
`SectorSize::minimal_ge`: whether some range contains `min`, and the bump
target (the largest `end` of a containing range, at least `min + 1`). -/
def aerStep (ranges : List (Nat × Nat)) (min : Nat) : Bool × Nat :=
  ranges.foldl
    (fun acc r =>
      if decide (r.1 ≤ min) && decide (min < r.2)
      then (true, Nat.max acc.2 r.2)
      else acc)
    (false, min + 1)

/-- Largest right endpoint occurring in a range list (used as a termination
measure for the `AnyExceptRanges` fixpoint). -/
def maxStop (ranges : List (Nat × Nat)) : Nat :=
  ranges.foldr (fun r acc => Nat.max r.2 acc) 0

theorem aerStep_fst_eq_any (ranges : List (Nat × Nat)) (min : Nat) :
    (aerStep ranges min).1
      = ranges.any (fun r => decide (r.1 ≤ min) && decide (min < r.2)) := by
  unfold aerStep
  suffices h : ∀ (l : List (Nat × Nat)) (acc : Bool × Nat),
      (l.foldl (fun acc r =>
          if decide (r.1 ≤ min) && decide (min < r.2)
          then (true, Nat.max acc.2 r.2) else acc) acc).1
        = (acc.1 || l.any (fun r => decide (r.1 ≤ min) && decide (min < r.2))) by
    simpa using h ranges (false, min + 1)
  intro l
  induction l with
  | nil => intro acc; simp
  | cons x xs ih =>
    intro acc
    simp only [List.foldl_cons, List.any_cons]
    cases hx : (decide (x.1 ≤ min) && decide (min < x.2)) with
    | false =>
      rw [if_neg Bool.false_ne_true, ih]
      simp
    | true =>
      rw [if_pos rfl, ih]
      simp

theorem aerStep_snd_gt (ranges : List (Nat × Nat)) (min : Nat) :
    min < (aerStep ranges min).2 := by
  unfold aerStep
  suffices h : ∀ (l : List (Nat × Nat)) (acc : Bool × Nat), min < acc.2 →
      min < (l.foldl (fun acc r =>
          if decide (r.1 ≤ min) && decide (min < r.2)
          then (true, Nat.max acc.2 r.2) else acc) acc).2 by
    exact h ranges (false, min + 1) (Nat.lt_succ_self min)
  intro l
  induction l with
  | nil => intro acc hacc; simpa using hacc
  | cons x xs ih =>
    intro acc hacc
    simp only [List.foldl_cons]
    cases hx : (decide (x.1 ≤ min) && decide (min < x.2)) with
    | false =>
      rw [if_neg Bool.false_ne_true]
      exact ih _ hacc
    | true =>
      rw [if_pos rfl]
      exact ih _ (lt_of_lt_of_le hacc (Nat.le_max_left _ _))

theorem mem_snd_le_maxStop (ranges : List (Nat × Nat)) (r : Nat × Nat)
    (h : r ∈ ranges) : r.2 ≤ maxStop ranges := by
  unfold maxStop
  induction ranges with
  | nil => cases h
  | cons x xs ih =>
    simp only [List.foldr_cons]
    rcases List.mem_cons.1 h with h1 | h2
    · subst h1; exact Nat.le_max_left _ _
    · exact le_trans (ih h2) (Nat.le_max_right _ _)

/-- Fixpoint loop of the `AnyExceptRanges` branch of
`SectorSize::minimal_ge` from `src/lib.rs`: while `min` lies inside some
excluded range, jump it to the largest such right endpoint. -/
def minimalGeAER (ranges : List (Nat × Nat)) (min : Nat) : Nat :=
  let step := aerStep ranges min
  if h : step.1 = true then minimalGeAER ranges step.2 else min
termination_by maxStop ranges + 1 - min
decreasing_by
  have hgt := aerStep_snd_gt ranges min
  have hmax : min < maxStop ranges := by
    rw [aerStep_fst_eq_any] at h
    obtain ⟨r, hr, hp⟩ := List.any_eq_true.1 h
    rw [Bool.and_eq_true] at hp
    have h2 : min < r.2 := of_decide_eq_true hp.2
    exact lt_of_lt_of_le h2 (mem_snd_le_maxStop ranges r hr)
  omega

/-- `SectorSize::minimal_ge` from `src/lib.rs`: smallest supported value
`≥ sector_size`, if any. -/
def SectorSize.minimal_ge (s : SectorSize) (sector_size : Nat) : Option Nat :=
  match s with
  | .any => some sector_size
  | .allOf l => minimalGeAllOf sector_size l none
  | .anyExcept l => some (minimalGeAnyExcept (l.insertionSort (· ≤ ·)) sector_size)
  | .inRanges rs => minimalGeInRanges sector_size rs none
  | .anyExceptRanges rs => some (minimalGeAER rs sector_size)

/-- `DiskInfos` from `src/lib.rs`. -/
structure DiskInfos where
  sector_size : SectorSize
  disk_size : Nat
  permissions : Permissions
deriving DecidableEq, Repr

/-- `DiskErr` from `src/lib.rs`. -/
inductive DiskErr where
  | invalidSectorSize (found : Nat) (supported : SectorSize) (start : Nat)
  | invalidSectorIndex (found max : Nat)
  | invalidPermission (disk_permissions : Permissions)
  | unreachableDisk
  | invalidDiskSize
  | busy
  | ioErr
  | unsupportedDiskSectorSize
  | invalidPartitionIndex
  | spaceAlreadyInUse
  | indexOutOfRange
  | outOfRangeValue
deriving DecidableEq, Repr

/-- Loan sets of a `DiskWrapper` (`src/src/wrappers.rs`): the read-borrow
and write-borrow interval lists.  The backing disk and the weak self
reference are passed separately where needed. -/
structure WrapperState where
  r_borrows : List (Nat × Nat)
  w_borrows : List (Nat × Nat)
deriving DecidableEq, Repr

/-- The loop body shared by `DiskWrapper::is_r_borrowed` and
`DiskWrapper::is_w_borrowed` (`src/src/wrappers.rs` lines 44-63): true iff
some interval `i` of the list satisfies
`(i.0 <= start && start < i.1) || (i.0 < end && end <= i.1)`. -/
def isBorrowedIn (borrows : List (Nat × Nat)) (start stop : Nat) : Bool :=
  borrows.any fun i =>
    (decide (i.1 ≤ start) && decide (start < i.2))
    || (decide (i.1 < stop) && decide (stop ≤ i.2))

/-- `DiskWrapper::is_r_borrowed` from `src/src/wrappers.rs`. -/
def DiskWrapper.is_r_borrowed (st : WrapperState) (start stop : Nat) : Bool :=
  isBorrowedIn st.r_borrows start stop

/-- `DiskWrapper::is_w_borrowed` from `src/src/wrappers.rs`. -/
def DiskWrapper.is_w_borrowed (st : WrapperState) (start stop : Nat) : Bool :=
  isBorrowedIn st.w_borrows start stop

/-- A contiguous subdisk view (`struct SubDisk`, `src/src/wrappers.rs`);
the weak parent handle is modelled separately.  `stop` is the exclusive
end byte (`end` in the source). -/
structure SubDisk where
  start : Nat
  stop : Nat
  sector_size : SectorSize
  permissions : Permissions
deriving DecidableEq, Repr

/-- A fragmented subdisk view (`struct FragmentedSubDisk`,
`src/src/wrappers.rs`). -/
structure FragmentedSubDisk where
  parts : List (Nat × Nat)
  size : Nat
  sector_size : SectorSize
  permissions : Permissions
deriving DecidableEq, Repr

/-- `DiskWrapper::subdisk` from `src/src/wrappers.rs`: rejects with `Busy`
when `is_w_borrowed(start,end) || (is_r_borrowed(start,end) && write)`,
with `InvalidDiskSize` when `end` exceeds the backing disk size, otherwise
registers the range in the loan sets according to the permissions.
`infos` stands for the result of `self.disk.disk_infos()`. -/
def DiskWrapper.subdisk (st : WrapperState) (infos : DiskInfos) (start stop : Nat)
    (permissions : Permissions) : Except DiskErr (SubDisk × WrapperState) :=
  if DiskWrapper.is_w_borrowed st start stop
      || (DiskWrapper.is_r_borrowed st start stop && permissions.write) then
    .error .busy
  else if stop > infos.disk_size then
    .error .invalidDiskSize
  else
    let st1 :=
      if permissions.read then { st with r_borrows := st.r_borrows ++ [(start, stop)] } else st
    let st2 :=
      if permissions.write then { st1 with w_borrows := st1.w_borrows ++ [(start, stop)] } else st1
    .ok (⟨start, stop, infos.sector_size, permissions⟩, st2)

/-- The validation loop of `DiskWrapper::fragmented_subdisk`
(`src/src/wrappers.rs` lines 131-163): each part is checked for bounds,
then for overlap with the read loans when the request has read permission
and with the write loans when it has write permission; the part sizes are
accumulated.  The loan lists do not change during the loop. -/
def fragCheckParts (r_borrows w_borrows : List (Nat × Nat)) (disk_size : Nat)
    (permissions : Permissions) : List (Nat × Nat) → Nat → Except DiskErr Nat
  | [], size => .ok size
  | (start, stop) :: rest, size =>
    if decide (start > stop) || decide (stop > disk_size) then .error .invalidDiskSize
    else if permissions.read && isBorrowedIn r_borrows start stop then .error .spaceAlreadyInUse
    else if permissions.write && isBorrowedIn w_borrows start stop then .error .spaceAlreadyInUse
    else fragCheckParts r_borrows w_borrows disk_size permissions rest (size + (stop - start))

/-- `DiskWrapper::fragmented_subdisk` from `src/src/wrappers.rs`: validates
every part with `fragCheckParts`, and only when all pass extends the loan
sets with all the parts. -/
def DiskWrapper.fragmented_subdisk (st : WrapperState) (infos : DiskInfos)
    (parts : List (Nat × Nat)) (permissions : Permissions) :
    Except DiskErr (FragmentedSubDisk × WrapperState) :=
  match fragCheckParts st.r_borrows st.w_borrows infos.disk_size permissions parts 0 with
  | .error e => .error e
  | .ok size =>
    let st1 := if permissions.read then { st with r_borrows := st.r_borrows ++ parts } else st
    let st2 := if permissions.write then { st1 with w_borrows := st1.w_borrows ++ parts } else st1
    .ok (⟨parts, size, infos.sector_size, permissions⟩, st2)

/-- Two half-open byte ranges `[a, b)` and `[s, t)` intersect. -/
def rangesOverlap (a b s t : Nat) : Bool := decide (Nat.max a s < Nat.min b t)

/-- Disk infos of a 100-byte read/write backing disk supporting any sector
size (a convenient concrete backing store for the registry claims). -/
def infos100 : DiskInfos := ⟨.any, 100, .read_write⟩

/-- C1: the claim says that after a write subdisk is issued on `[a,b)`,
every overlapping read- or write-permission request fails `Busy`, and that
`is_r_borrowed`/`is_w_borrowed` return true iff some registered interval
overlaps the queried half-open range.  The code refutes it: its overlap
test `(i.0 <= start && start < i.1) || (i.0 < end && end <= i.1)` misses
the case of a loan strictly contained in the query.  Concretely: a
write-only subdisk on `[2,3)` succeeds and registers `(2,3)` as a write
loan; `[2,3)` overlaps `[0,10)`; yet `is_w_borrowed(0,10)` returns false
and a subsequent read/write subdisk on `[0,10)` is granted instead of
failing `Busy`. -/
theorem c1_overlap_missed :
    DiskWrapper.subdisk ⟨[], []⟩ infos100 2 3 .write_only
      = .ok (⟨2, 3, .any, .write_only⟩, ⟨[], [(2, 3)]⟩)
    ∧ rangesOverlap 2 3 0 10 = true
    ∧ DiskWrapper.is_w_borrowed ⟨[], [(2, 3)]⟩ 0 10 = false
    ∧ DiskWrapper.is_r_borrowed ⟨[(2, 3)], []⟩ 0 10 = false
    ∧ DiskWrapper.subdisk ⟨[], [(2, 3)]⟩ infos100 0 10 .read_write
      = .ok (⟨0, 10, .any, .read_write⟩, ⟨[(0, 10)], [(2, 3), (0, 10)]⟩) := by
  refine ⟨rfl, rfl, rfl, rfl, rfl⟩

/-- C2: the claim says `fragmented_subdisk` fails with `SpaceAlreadyInUse`
exactly on the aliasing-rule violations (write request overlapping any
loan, read request overlapping a write loan), so that two read-only
fragmented subdisks over the same ranges coexist.  The code refutes it:
it checks a read request against the *read* loans and a write request
against the *write* loans.  Concretely, with a read loan on `[0,10)` a
second read-only request for `[(0,10)]` fails `SpaceAlreadyInUse`, while
with a write loan on `[0,10)` a read-only request for `[(0,10)]`
succeeds. -/
theorem c2_frag_aliasing_sides_swapped :
    DiskWrapper.fragmented_subdisk ⟨[(0, 10)], []⟩ infos100 [(0, 10)] .read_only
      = .error .spaceAlreadyInUse
    ∧ DiskWrapper.fragmented_subdisk ⟨[], [(0, 10)]⟩ infos100 [(0, 10)] .read_only
      = .ok (⟨[(0, 10)], 10, .any, .read_only⟩, ⟨[(0, 10)], [(0, 10)]⟩) := by
  refine ⟨rfl, rfl⟩

/-- `FatError` from `src/src/filesystems/fat/mod.rs`. -/
inductive FatError where
  | invalidValueForFATX
  | reservedValue
  | indexOutOfRange
  | infiniteLoop
deriving DecidableEq, Repr

/-- `FatEntry` from `src/src/filesystems/fat/mod.rs`. -/
inductive FatEntry where
  | free
  | allocated (next : Nat)
  | bad
  | eof
deriving DecidableEq, Repr

/-- `FatEntry::from_fat12` from `src/src/filesystems/fat/mod.rs`. -/
def FatEntry.from_fat12 (value : Nat) : Except FatError FatEntry :=
  if value > 0xFFF then .error .invalidValueForFATX
  else if value = 0 then .ok .free
  else if 0x2 ≤ value ∧ value ≤ 0xFF6 then .ok (.allocated value)
  else if value = 0xFF7 then .ok .bad
  else if value = 0xFFF then .ok .eof
  else .error .reservedValue

/-- `FatEntry::to_fat12` from `src/src/filesystems/fat/mod.rs`.  Note the
source really does return `Ok(*next)` when `*next > 0xFF6 || *next < 2` and
`Err(InvalidValueForFATX)` otherwise. -/
def FatEntry.to_fat12 : FatEntry → Except FatError Nat
  | .free => .ok 0
  | .allocated next =>
      if next > 0xFF6 ∨ next < 2 then .ok next else .error .invalidValueForFATX
  | .bad => .ok 0xFF7
  | .eof => .ok 0xFFF

/-- `FatEntry::is_eof` from `src/src/filesystems/fat/mod.rs`. -/
def FatEntry.is_eof (e : FatEntry) : Bool := e == .eof

/-- `ceil(a / b)`, the `usize::div_ceil` of the source (callers guarantee
`b > 0`). -/
def divCeil (a b : Nat) : Nat := (a + b - 1) / b

/-- `usize::count_ones` (number of binary ones). -/
def countOnes (n : Nat) : Nat :=
  if n = 0 then 0 else n % 2 + countOnes (n / 2)
termination_by n
decreasing_by omega

/-- `usize::is_power_of_two` / `count_ones() == 1` of the source. -/
def isPow2 (n : Nat) : Bool := countOnes n == 1

/-- The `BiosParameterBlock` struct of the (missing) `bpb` module, with the
fields exactly as listed in the specification and as set by the struct
literals of `Fat12::new`/`Fat16::new`.  Byte-array fields are `List Nat`. -/
structure BiosParameterBlock where
  jmp_boot : List Nat
  oem_name : List Nat
  bytes_per_sector : Nat
  sectors_per_cluster : Nat
  reserved_sectors_count : Nat
  number_of_fats : Nat
  root_entries_count : Nat
  total_sectors_16 : Nat
  media : Nat
  fat_size : Nat
  sectors_per_track : Nat
  number_of_heads : Nat
  hidden_sectors : Nat
  total_sectors_32 : Nat
  drive_number : Nat
  reserved0 : Nat
  boot_signature : Nat
  volume_id : Nat
  volume_label : List Nat
  fs_type : List Nat
  boot_code : List Nat
  signature : Nat
deriving DecidableEq, Repr

/-- Modelled from the spec: the `total_sectors` of a FAT12/16 volume — the
`bpb.rs` file implementing the accessors is absent from the sources.  Per
the specification, `total_sectors` fits the 16-bit field when possible and
the 32-bit field otherwise. -/
def BiosParameterBlock.total_sectors (bpb : BiosParameterBlock) : Nat :=
  if bpb.total_sectors_16 ≠ 0 then bpb.total_sectors_16 else bpb.total_sectors_32

/-- Modelled from the spec: the root directory region spans
`root_entries_count × 32` bytes rounded up to whole sectors (`bpb.rs` is
absent from the sources). -/
def BiosParameterBlock.root_dir_sectors (bpb : BiosParameterBlock) : Nat :=
  divCeil (bpb.root_entries_count * 32) bpb.bytes_per_sector

/-- Modelled from the spec: `data_start_sector` is
`reserved_sectors_count + number_of_fats × fat_size +
ceil(root_entries_count × 32 / sector_size)` (`bpb.rs` is absent from the
sources; the formula is stated verbatim in the specification's external
interface section). -/
def BiosParameterBlock.data_start_sector (bpb : BiosParameterBlock) : Nat :=
  bpb.reserved_sectors_count + bpb.number_of_fats * bpb.fat_size + bpb.root_dir_sectors

/-- Modelled from the spec: the count of clusters of the data region, which
runs from `data_start_sector` to the end of the volume in units of
`sectors_per_cluster` (`bpb.rs` is absent from the sources). -/
def BiosParameterBlock.count_of_clusters (bpb : BiosParameterBlock) : Nat :=
  (bpb.total_sectors - bpb.data_start_sector) / bpb.sectors_per_cluster

/-- Modelled from the spec: `BiosParameterBlock::is_valid` checks the
structural constraints of the data-model section — `bytes_per_sector` a
power of two `≥ 512`, `sectors_per_cluster` a power of two `≤ 128`,
`root_entries_count × 32` a multiple of `bytes_per_sector`, `total_sectors`
present, and `signature == 0xAA55` (`bpb.rs` is absent from the
sources). -/
def BiosParameterBlock.is_valid (bpb : BiosParameterBlock) : Bool :=
  decide (bpb.bytes_per_sector ≥ 512) && isPow2 bpb.bytes_per_sector
    && isPow2 bpb.sectors_per_cluster && decide (bpb.sectors_per_cluster ≤ 128)
    && decide ((bpb.root_entries_count * 32) % bpb.bytes_per_sector = 0)
    && decide (bpb.total_sectors ≠ 0)
    && decide (bpb.signature = 0xAA55)

/-- One sector of a byte-addressed backing store, as a byte list:
`content` maps absolute byte offsets to byte values. -/
def readSector (content : Nat → Nat) (sector_size sector : Nat) : List Nat :=
  (List.range sector_size).map fun j => content (sector * sector_size + j)

/-- Writing a buffer at sector `sector` of a byte-addressed backing
store. -/
def writeSector (content : Nat → Nat) (sector_size sector : Nat) (buf : List Nat) :
    Nat → Nat :=
  fun i =>
    if sector * sector_size ≤ i ∧ i < sector * sector_size + buf.length
    then buf.getD (i - sector * sector_size) 0
    else content i

/-- `DiskWrapper::read_sector` (`src/src/wrappers.rs`, `impl Disk for
DiskWrapper`): refuses with `Busy` when the byte range overlaps a write
loan, then forwards to the backing disk (modelled as a byte store whose
in-range reads succeed). -/
def wrapperReadSector (st : WrapperState) (content : Nat → Nat) (sector_size sector : Nat) :
    Except DiskErr (List Nat) :=
  let start := sector * sector_size
  let stop := start + sector_size
  if DiskWrapper.is_w_borrowed st start stop then .error .busy
  else .ok (readSector content sector_size sector)

/-- `DiskWrapper::write_sector` (`src/src/wrappers.rs`): refuses with
`Busy` when the byte range overlaps a write or read loan, then forwards to
the backing disk. -/
def wrapperWriteSector (st : WrapperState) (content : Nat → Nat) (sector : Nat)
    (buf : List Nat) : Except DiskErr (Nat → Nat) :=
  let start := sector * buf.length
  let stop := start + buf.length
  if DiskWrapper.is_w_borrowed st start stop || DiskWrapper.is_r_borrowed st start stop then
    .error .busy
  else .ok (writeSector content buf.length sector buf)

/-- `Fat12::get_fat_entry` from `src/src/filesystems/fat/fat12/mod.rs`:
index checks, FAT12 addressing `fat_offset = index + index/2`, a one-sector
read plus a second read only when `fat_offset == sector_size - 1`, then the
nibble extraction (`>> 4` for odd indices, `& 0xFFF` for even ones) and
`FatEntry::from_fat12`. -/
def Fat12.get_fat_entry (bpb : BiosParameterBlock) (sector_size : Nat) (st : WrapperState)
    (content : Nat → Nat) (index fat_index : Nat) :
    Except DiskErr (Except FatError FatEntry) :=
  if index ≥ bpb.count_of_clusters ∨ fat_index ≥ bpb.number_of_fats then
    .ok (.error .indexOutOfRange)
  else
    let fat_offset := index + index / 2
    let sector_number :=
      bpb.reserved_sectors_count + fat_offset / sector_size + fat_index * bpb.fat_size
    let fat_entry_offset := fat_offset % sector_size
    match wrapperReadSector st content sector_size sector_number with
    | .error e => .error e
    | .ok first =>
      match (if fat_offset = sector_size - 1
             then wrapperReadSector st content sector_size (sector_number + 1)
             else .ok (List.replicate sector_size 0)) with
      | .error e => .error e
      | .ok second =>
        let sectors := first ++ second
        let entry := sectors.getD fat_entry_offset 0 + 256 * sectors.getD (fat_entry_offset + 1) 0
        let entry := if index % 2 = 1 then entry / 16 else entry % 4096
        .ok (FatEntry.from_fat12 entry)

/-- `Fat12::set_fat_entry` from `src/src/filesystems/fat/fat12/mod.rs`:
same addressing as `get_fat_entry`; encodes with `FatEntry::to_fat12`,
clears the target bits of the buffered bytes, ORs the little-endian entry
bytes in, writes the first sector back — and, in the straddling case, only
re-READS the second sector (exactly as the source does) instead of writing
it.  Returns the updated backing store on success. -/
def Fat12.set_fat_entry (bpb : BiosParameterBlock) (sector_size : Nat) (st : WrapperState)
    (content : Nat → Nat) (index fat_index : Nat) (value : FatEntry) :
    Except DiskErr (Except FatError (Nat → Nat)) :=
  if index ≥ bpb.count_of_clusters ∨ fat_index ≥ bpb.number_of_fats then
    .ok (.error .indexOutOfRange)
  else
    let fat_offset := index + index / 2
    let sector_number :=
      bpb.reserved_sectors_count + fat_offset / sector_size + fat_index * bpb.fat_size
    let fat_entry_offset := fat_offset % sector_size
    match wrapperReadSector st content sector_size sector_number with
    | .error e => .error e
    | .ok first =>
      match (if fat_offset = sector_size - 1
             then wrapperReadSector st content sector_size (sector_number + 1)
             else .ok (List.replicate sector_size 0)) with
      | .error e => .error e
      | .ok second =>
        match value.to_fat12 with
        | .error e => .ok (.error e)
        | .ok v =>
          let sectors := first ++ second
          let value16 :=
            if index % 2 = 1 then (v * 16) % 65536 else v % 4096
          let sectors :=
            if index % 2 = 1 then
              (sectors.set fat_entry_offset (sectors.getD fat_entry_offset 0 % 16)).set
                (fat_entry_offset + 1) 0
            else
              (sectors.set fat_entry_offset 0).set
                (fat_entry_offset + 1) (sectors.getD (fat_entry_offset + 1) 0 / 16 * 16)
          let sectors :=
            sectors.set fat_entry_offset (Nat.lor (sectors.getD fat_entry_offset 0) (value16 % 256))
          let sectors :=
            sectors.set (fat_entry_offset + 1)
              (Nat.lor (sectors.getD (fat_entry_offset + 1) 0) (value16 / 256))
          match wrapperWriteSector st content sector_number (sectors.take sector_size) with
          | .error e => .error e
          | .ok content1 =>
            match (if fat_offset = sector_size - 1
                   then wrapperReadSector st content1 sector_size (sector_number + 1)
                   else .ok (List.replicate sector_size 0)) with
            | .error e => .error e
            | .ok _ => .ok (.ok content1)

/-- The `while !current_entry.is_eof()` loop of the default
`FatFS::get_file` (`src/src/filesystems/fat/mod.rs`): when the current
entry is `Allocated{next}` it appends `next` and advances; when it is `EOF`
it stops; for any other entry the loop body does nothing and the loop runs
again with unchanged state.  `fuel` counts loop iterations; `none` means
the fuel was exhausted without the loop finishing. -/
def getFileLoop (getEntry : Nat → Except DiskErr (Except FatError FatEntry)) :
    Nat → FatEntry → List Nat → Option (Except DiskErr (Except FatError (List Nat)))
  | 0, _, _ => none
  | fuel + 1, current, clusters =>
    if current.is_eof then some (.ok (.ok clusters))
    else
      match current with
      | .allocated next =>
        match getEntry next with
        | .error e => some (.error e)
        | .ok (.error e) => some (.ok (.error e))
        | .ok (.ok v) => getFileLoop getEntry fuel v (clusters ++ [next])
      | _ => getFileLoop getEntry fuel current clusters

/-- The default `FatFS::get_file` of `src/src/filesystems/fat/mod.rs` up to
the final `create_frangemented_subdisk` call: yields the collected cluster
list (the registry call consumes it afterwards).  `getEntry` stands for
`self.get_fat_entry(·, 0)`. -/
def FatFS.get_file (getEntry : Nat → Except DiskErr (Except FatError FatEntry))
    (first_cluster fuel : Nat) : Option (Except DiskErr (Except FatError (List Nat))) :=
  match getEntry first_cluster with
  | .error e => some (.error e)
  | .ok (.error e) => some (.ok (.error e))
  | .ok (.ok v) => getFileLoop getEntry fuel v [first_cluster]

/-- A concrete FAT12 geometry for the codec claims: 512-byte sectors, one
reserved sector, one FAT of two sectors, no root directory entries, 403
total sectors, hence 400 clusters — so cluster index 341 (whose entry
starts at FAT byte 511) is in range and its entry straddles the boundary
between the two FAT sectors. -/
def c3bpb : BiosParameterBlock :=
  { jmp_boot := [0xEB, 0xFE, 0x90], oem_name := List.replicate 8 0,
    bytes_per_sector := 512, sectors_per_cluster := 1, reserved_sectors_count := 1,
    number_of_fats := 1, root_entries_count := 0, total_sectors_16 := 403,
    media := 0xF8, fat_size := 2, sectors_per_track := 0, number_of_heads := 0,
    hidden_sectors := 0, total_sectors_32 := 0, drive_number := 0x80, reserved0 := 0,
    boot_signature := 0x29, volume_id := 0, volume_label := List.replicate 11 0,
    fs_type := List.replicate 8 0, boot_code := List.replicate 448 0,
    signature := 0xAA55 }

/-- `set_fat_entry(341, 0, EOF)` followed by `get_fat_entry(341, 0)` on an
all-zero FAT, on the geometry `c3bpb` where entry 341 straddles the two FAT
sectors. -/
def c3SetThenGet : Except DiskErr (Except FatError FatEntry) :=
  match Fat12.set_fat_entry c3bpb 512 ⟨[], []⟩ (fun _ => 0) 341 0 .eof with
  | .error e => .error e
  | .ok (.error e) => .ok (.error e)
  | .ok (.ok content1) => Fat12.get_fat_entry c3bpb 512 ⟨[], []⟩ content1 341 0

set_option maxRecDepth 100000 in
/-- C3: the claim says `set_fat_entry(N,0,E); get_fat_entry(N,0) == E` for
every representable `E`, including the sector-straddling case.  The code
refutes it twice.  First, `FatEntry::to_fat12` has its range test inverted,
so every legal `Allocated{next}` (e.g. `next = 4`) encodes to
`Err(InvalidValueForFATX)` — `set_fat_entry` refuses the very values
`from_fat12` produces.  Second, in the straddling case
(`fat_offset == sector_size - 1`) `set_fat_entry` writes the first sector
back but only re-reads the second, so the upper byte of the entry is lost:
writing `EOF` at index 341 of an all-zero FAT reads back as
`Allocated{15}`. -/
theorem c3_fat12_codec_broken :
    FatEntry.to_fat12 (.allocated 4) = .error .invalidValueForFATX
    ∧ FatEntry.from_fat12 4 = .ok (.allocated 4)
    ∧ c3SetThenGet = .ok (.ok (.allocated 15))
    ∧ (FatEntry.allocated 15 ≠ .eof) := by
  refine ⟨rfl, rfl, by rfl, by decide⟩

/-- C4: the claim says `get_file`/`get_cluster_chain` terminates for every
FAT state, returning a domain error when a `Free` entry is met mid-chain.
The code refutes it: when the current entry is `Free` (not EOF, not
Allocated) the `while` body does nothing, so the loop never exits — for
every fuel bound the model is still running.  Here every FAT entry reads as
`Free` and the chain starts at cluster 2. -/
theorem c4_get_file_diverges_on_free :
    ∀ fuel : Nat,
      FatFS.get_file (fun _ => .ok (.ok .free)) 2 fuel = none := by
  have hloop : ∀ (fuel : Nat) (clusters : List Nat),
      getFileLoop (fun _ => .ok (.ok .free)) fuel .free clusters = none := by
    intro fuel
    induction fuel with
    | zero => intro clusters; rfl
    | succ n ih => intro clusters; exact ih clusters
  intro fuel
  show getFileLoop (fun _ => .ok (.ok .free)) fuel .free [2] = none
  exact hloop fuel [2]

/-- The default-sector-size loop shared by `Fat12::new`, `Fat16::new` and
`read_from_disk`: the first of 512, 1024, 2048, 4096 supported by the disk,
or 0 when none is. -/
def defaultSectorSize (policy : SectorSize) (disk_size : Nat) : Nat :=
  if policy.is_supported 512 disk_size then 512
  else if policy.is_supported 1024 disk_size then 1024
  else if policy.is_supported 2048 disk_size then 2048
  else if policy.is_supported 4096 disk_size then 4096
  else 0

/-- `usize::next_power_of_two`: the smallest power of two `≥ n` (1 for
`n ≤ 1`). -/
def nextPowerOfTwo (n : Nat) : Nat := if n ≤ 1 then 1 else 2 ^ Nat.clog 2 n

/-- `Fat12::new` from `src/src/filesystems/fat/fat12/mod.rs`, as the pure
layout computation: the backing disk enters through its `DiskInfos`
(`policy`, `disk_size`), and the result is the created BPB (if any)
together with the number of sector writes performed (the source zeroes
`reserved + fats×fat_size + root_dir_sectors` sectors and then writes the
boot sector; a rejection writes nothing).  The rejection gate is
transcribed verbatim — including the condition
`(root_dir_entries * 32).is_multiple_of(sector_size)`, which the source
really uses in that polarity.  `BiosParameterBlock::is_valid` is the
spec-modelled validity check (its source file is absent).  The `usize`
subtractions of the in-range arithmetic are Lean's truncated subtraction. -/
def Fat12.new (policy : SectorSize) (disk_size root_dir_entries number_of_fats hidden_sectors : Nat)
    (sector_size? : Option Nat) (sectors_per_cluster? : Option Nat) :
    Option BiosParameterBlock × Nat :=
  let sector_size :=
    match sector_size? with
    | some v => v
    | none => defaultSectorSize policy disk_size
  if sector_size < 512 ∨ countOnes sector_size ≠ 1 ∨ sector_size > 0xFFFF
      ∨ (root_dir_entries * 32) % sector_size = 0
      ∨ number_of_fats > 0xFF ∨ root_dir_entries > 0xFFFF ∨ hidden_sectors > 0xFFFFFFFF then
    (none, 0)
  else
    let root_dir_sectors := (root_dir_entries * 32) / sector_size
    let total_sectors := disk_size / sector_size
    let sectors_per_cluster :=
      match sectors_per_cluster? with
      | some v => v
      | none => nextPowerOfTwo (divCeil (total_sectors - root_dir_sectors - 1) 4085)
    if countOnes sectors_per_cluster ≠ 1 ∨ sectors_per_cluster > 0xFF
        ∨ total_sectors > 0xFFFFFFFF then
      (none, 0)
    else
      let count0 := (total_sectors - root_dir_sectors - 1) / sectors_per_cluster
      let fat_size := divCeil (count0 + count0 / 2) sector_size
      let count_of_clusters :=
        (total_sectors - root_dir_sectors - fat_size * number_of_fats - 1) / sectors_per_cluster
      let reserved_sectors := total_sectors - count_of_clusters * sectors_per_cluster
        - fat_size * number_of_fats - root_dir_sectors
      let ts := if total_sectors < 0x10000 then (total_sectors, 0) else (0, total_sectors)
      let bpb : BiosParameterBlock :=
        { jmp_boot := [0xEB, 0xFE, 0x90], oem_name := List.replicate 8 0,
          bytes_per_sector := sector_size, sectors_per_cluster := sectors_per_cluster,
          reserved_sectors_count := reserved_sectors % 0x10000,
          number_of_fats := number_of_fats, root_entries_count := root_dir_entries,
          total_sectors_16 := ts.1, media := 0xF8, fat_size := fat_size % 0x10000,
          sectors_per_track := 0, number_of_heads := 0, hidden_sectors := hidden_sectors,
          total_sectors_32 := ts.2, drive_number := 0x80, reserved0 := 0,
          boot_signature := 0x29, volume_id := 0,
          volume_label := [0x4E, 0x4F, 0x20, 0x4E, 0x41, 0x4D, 0x45, 0x20, 0x20, 0x20, 0x20],
          fs_type := [0x46, 0x41, 0x54, 0x31, 0x32, 0x20, 0x20, 0x20],
          boot_code := List.replicate 448 0, signature := 0xAA55 }
      if !bpb.is_valid then (none, 0)
      else (some bpb, reserved_sectors + number_of_fats * fat_size + root_dir_sectors + 1)

/-- `Fat16::new` from `src/src/filesystems/fat/fat16/mod.rs`, modelled like
`Fat12.new` (same inverted `is_multiple_of` gate); the FAT16 version
additionally rejects `count_of_clusters < 4085 || count_of_clusters >
65525` before building the BPB. -/
def Fat16.new (policy : SectorSize) (disk_size root_dir_entries number_of_fats hidden_sectors : Nat)
    (sector_size? : Option Nat) (sectors_per_cluster? : Option Nat) :
    Option BiosParameterBlock × Nat :=
  let sector_size :=
    match sector_size? with
    | some v => v
    | none => defaultSectorSize policy disk_size
  if sector_size < 512 ∨ countOnes sector_size ≠ 1 ∨ sector_size > 0xFFFF
      ∨ (root_dir_entries * 32) % sector_size = 0
      ∨ number_of_fats > 0xFF ∨ root_dir_entries > 0xFFFF ∨ hidden_sectors > 0xFFFFFFFF then
    (none, 0)
  else
    let root_dir_sectors := (root_dir_entries * 32) / sector_size
    let total_sectors := disk_size / sector_size
    let sectors_per_cluster :=
      match sectors_per_cluster? with
      | some v => v
      | none => nextPowerOfTwo (divCeil (total_sectors - root_dir_sectors - 1) 65525)
    if !(isPow2 sectors_per_cluster) ∨ sectors_per_cluster > 0xFF
        ∨ total_sectors > 0xFFFFFFFF then
      (none, 0)
    else
      let count0 := (total_sectors - root_dir_sectors - 1) / sectors_per_cluster
      let fat_size := divCeil (count0 + count0 / 2) sector_size
      let count_of_clusters :=
        (total_sectors - root_dir_sectors - fat_size * number_of_fats - 1) / sectors_per_cluster
      let reserved_sectors := total_sectors - count_of_clusters * sectors_per_cluster
        - fat_size * number_of_fats - root_dir_sectors
      if count_of_clusters < 4085 ∨ count_of_clusters > 65525 then (none, 0)
      else
        let ts := if total_sectors < 0x10000 then (total_sectors, 0) else (0, total_sectors)
        let bpb : BiosParameterBlock :=
          { jmp_boot := [0xEB, 0xFE, 0x90], oem_name := List.replicate 8 0,
            bytes_per_sector := sector_size, sectors_per_cluster := sectors_per_cluster,
            reserved_sectors_count := reserved_sectors % 0x10000,
            number_of_fats := number_of_fats, root_entries_count := root_dir_entries,
            total_sectors_16 := ts.1, media := 0xF8, fat_size := fat_size % 0x10000,
            sectors_per_track := 0, number_of_heads := 0, hidden_sectors := hidden_sectors,
            total_sectors_32 := ts.2, drive_number := 0x80, reserved0 := 0,
            boot_signature := 0x29, volume_id := 0,
            volume_label := [0x4E, 0x4F, 0x20, 0x4E, 0x41, 0x4D, 0x45, 0x20, 0x20, 0x20, 0x20],
            fs_type := [0x46, 0x41, 0x54, 0x31, 0x36, 0x20, 0x20, 0x20],
            boot_code := List.replicate 448 0, signature := 0xAA55 }
        if !bpb.is_valid then (none, 0)
        else (some bpb, reserved_sectors + number_of_fats * fat_size + root_dir_sectors + 1)

/-- C5: the claim says `Fat12::new`/`Fat16::new` reject when
`root_dir_entries × 32` is NOT a multiple of `sector_size` and proceed when
it IS (and the other bounds hold).  The code has the test inverted: the
gate reads `|| (root_dir_entries * 32).is_multiple_of(sector_size)`, so
whenever the alignment actually holds — whatever the other arguments —
both constructors return `None` without writing a single sector. -/
theorem c5_new_gate_inverted :
    ∀ (policy : SectorSize) (disk_size root fats hidden ss : Nat) (spc? : Option Nat),
      (root * 32) % ss = 0 →
      Fat12.new policy disk_size root fats hidden (some ss) spc? = (none, 0)
      ∧ Fat16.new policy disk_size root fats hidden (some ss) spc? = (none, 0) := by
  intro policy disk_size root fats hidden ss spc? h
  constructor
  · show Fat12.new policy disk_size root fats hidden (some ss) spc? = (none, 0)
    unfold Fat12.new
    exact if_pos (Or.inr (Or.inr (Or.inr (Or.inl h))))
  · show Fat16.new policy disk_size root fats hidden (some ss) spc? = (none, 0)
    unfold Fat16.new
    exact if_pos (Or.inr (Or.inr (Or.inr (Or.inl h))))

/-- Witness for C5 at a concrete, otherwise perfectly legal request: a
64 MiB disk, 512 root directory entries (512 × 32 = 16384 = 32 × 512), two
FATs, zero hidden sectors, sector size 512. -/
theorem c5_new_gate_inverted_witness :
    (512 * 32) % 512 = 0
    ∧ Fat12.new (.allOf [512]) 67108864 512 2 0 (some 512) none = (none, 0)
    ∧ Fat16.new (.allOf [512]) 67108864 512 2 0 (some 512) none = (none, 0) :=
  ⟨by decide,
   (c5_new_gate_inverted (.allOf [512]) 67108864 512 2 0 512 none (by decide)).1,
   (c5_new_gate_inverted (.allOf [512]) 67108864 512 2 0 512 none (by decide)).2⟩

/-- Start byte of the root directory view built by `Fat12::get_root_dir`
(`src/src/filesystems/fat/fat12/mod.rs`): the source computes
`(reserved_sectors_count + fat_size + number_of_fats) * sector_size`. -/
def Fat12.root_dir_start (bpb : BiosParameterBlock) (sector_size : Nat) : Nat :=
  (bpb.reserved_sectors_count + bpb.fat_size + bpb.number_of_fats) * sector_size

/-- Start byte of the root directory view built by `Fat16::get_root_dir`
(`src/src/filesystems/fat/fat16/mod.rs`):
`(reserved_sectors_count + fat_size * number_of_fats) * sector_size`. -/
def Fat16.root_dir_start (bpb : BiosParameterBlock) (sector_size : Nat) : Nat :=
  (bpb.reserved_sectors_count + bpb.fat_size * bpb.number_of_fats) * sector_size

/-- `Fat12::get_root_dir` from `src/src/filesystems/fat/fat12/mod.rs`:
issues a subdisk from `root_dir_start` spanning `root_entries_count × 32`
bytes rounded up to whole sectors. -/
def Fat12.get_root_dir (bpb : BiosParameterBlock) (sector_size : Nat) (st : WrapperState)
    (infos : DiskInfos) (permissions : Permissions) :
    Except DiskErr (SubDisk × WrapperState) :=
  let root_dir_start := Fat12.root_dir_start bpb sector_size
  let root_dir_end :=
    root_dir_start + divCeil (bpb.root_entries_count * 32) sector_size * sector_size
  DiskWrapper.subdisk st infos root_dir_start root_dir_end permissions

/-- `Fat16::get_root_dir` from `src/src/filesystems/fat/fat16/mod.rs`. -/
def Fat16.get_root_dir (bpb : BiosParameterBlock) (sector_size : Nat) (st : WrapperState)
    (infos : DiskInfos) (permissions : Permissions) :
    Except DiskErr (SubDisk × WrapperState) :=
  let root_dir_start := Fat16.root_dir_start bpb sector_size
  let root_dir_end :=
    root_dir_start + divCeil (bpb.root_entries_count * 32) sector_size * sector_size
  DiskWrapper.subdisk st infos root_dir_start root_dir_end permissions

/-- A gigabyte-sized permissive backing disk for the layout claims. -/
def infosBig : DiskInfos := ⟨.any, 1000000000, .read_write⟩

/-- A concrete FAT geometry for the layout claims: 512-byte sectors, one
reserved sector, two FATs of three sectors each, 32 root directory entries
(1024 bytes = 2 sectors), one sector per cluster, 100 total sectors. -/
def c6bpb : BiosParameterBlock :=
  { jmp_boot := [0xEB, 0xFE, 0x90], oem_name := List.replicate 8 0,
    bytes_per_sector := 512, sectors_per_cluster := 1, reserved_sectors_count := 1,
    number_of_fats := 2, root_entries_count := 32, total_sectors_16 := 100,
    media := 0xF8, fat_size := 3, sectors_per_track := 0, number_of_heads := 0,
    hidden_sectors := 0, total_sectors_32 := 0, drive_number := 0x80, reserved0 := 0,
    boot_signature := 0x29, volume_id := 0, volume_label := List.replicate 11 0,
    fs_type := List.replicate 8 0, boot_code := List.replicate 448 0,
    signature := 0xAA55 }

/-- C6: the claim says both `Fat12::get_root_dir` and `Fat16::get_root_dir`
return a view starting at `(reserved_sectors_count + number_of_fats ×
fat_size) × sector_size`.  `Fat16` does; `Fat12` instead ADDS `fat_size`
and `number_of_fats` (`reserved + fat_size + number_of_fats`), which
differs whenever `fat_size + number_of_fats ≠ fat_size × number_of_fats`:
with reserved = 1, two FATs of three sectors, 512-byte sectors, the Fat12
view starts at byte 3072 instead of the claimed 3584 (the span, 1024 bytes
rounded up to 2 sectors, is as claimed). -/
theorem c6_fat12_root_dir_start_wrong :
    Fat12.get_root_dir c6bpb 512 ⟨[], []⟩ infosBig .read_only
      = .ok (⟨3072, 4096, .any, .read_only⟩, ⟨[(3072, 4096)], []⟩)
    ∧ (c6bpb.reserved_sectors_count + c6bpb.number_of_fats * c6bpb.fat_size) * 512 = 3584
    ∧ Fat12.root_dir_start c6bpb 512 ≠ 3584
    ∧ (∀ (bpb : BiosParameterBlock) (ss : Nat),
        Fat16.root_dir_start bpb ss
          = (bpb.reserved_sectors_count + bpb.number_of_fats * bpb.fat_size) * ss) := by
  refine ⟨rfl, rfl, by decide, ?_⟩
  intro bpb ss
  unfold Fat16.root_dir_start
  rw [Nat.mul_comm bpb.fat_size bpb.number_of_fats]

/-- The parent sector where `Fat12::create_frangemented_subdisk`
(`src/src/filesystems/fat/fat12/mod.rs`) places cluster `c`:
`reserved_sectors_count + fat_size * number_of_fats +
(c - 2) * sectors_per_cluster` — no root-directory term. -/
def Fat12.cluster_part_start (bpb : BiosParameterBlock) (c : Nat) : Nat :=
  bpb.reserved_sectors_count + bpb.fat_size * bpb.number_of_fats
    + (c - 2) * bpb.sectors_per_cluster

/-- The parent sector where `Fat16::create_frangemented_subdisk`
(`src/src/filesystems/fat/fat16/mod.rs`) places cluster `c`: as for Fat12
plus `(root_entries_count * 32) / sector_size`. -/
def Fat16.cluster_part_start (bpb : BiosParameterBlock) (sector_size c : Nat) : Nat :=
  bpb.reserved_sectors_count + bpb.fat_size * bpb.number_of_fats
    + (bpb.root_entries_count * 32) / sector_size
    + (c - 2) * bpb.sectors_per_cluster

/-- The first sector of the subdisk returned by `get_cluster` (both
variants): `data_start_sector + (c - 2) * sectors_per_cluster`. -/
def clusterFirstSector (bpb : BiosParameterBlock) (c : Nat) : Nat :=
  bpb.data_start_sector + (c - 2) * bpb.sectors_per_cluster

/-- `Fat12::get_cluster` from `src/src/filesystems/fat/fat12/mod.rs`
(`Fat16::get_cluster` is textually identical): index checks, then a
subdisk over exactly one cluster of sectors starting at
`data_start_sector + (index - 2) * sectors_per_cluster`. -/
def Fat12.get_cluster (bpb : BiosParameterBlock) (sector_size : Nat) (st : WrapperState)
    (infos : DiskInfos) (index : Nat) (permissions : Permissions) :
    Except DiskErr (Except FatError (SubDisk × WrapperState)) :=
  if index ≥ bpb.count_of_clusters ∨ index < 2 then .ok (.error .indexOutOfRange)
  else
    let first_sector := clusterFirstSector bpb index
    match DiskWrapper.subdisk st infos (first_sector * sector_size)
        ((first_sector + bpb.sectors_per_cluster) * sector_size) permissions with
    | .error e => .error e
    | .ok v => .ok (.ok v)

/-- The part-building loop of `Fat12::create_frangemented_subdisk`
(`src/src/filesystems/fat/fat12/mod.rs`): per cluster, bounds check,
duplicate check against the later clusters (`InfiniteLoop`), then the
byte range `[start × sector_size, (start + sectors_per_cluster) ×
sector_size)` with `start = Fat12.cluster_part_start`. -/
def fat12BuildParts (bpb : BiosParameterBlock) (sector_size : Nat) :
    List Nat → Except FatError (List (Nat × Nat))
  | [] => .ok []
  | c :: rest =>
    if c ≥ bpb.count_of_clusters ∨ c < 2 then .error .indexOutOfRange
    else if rest.contains c then .error .infiniteLoop
    else
      match fat12BuildParts bpb sector_size rest with
      | .error e => .error e
      | .ok parts =>
        let start := Fat12.cluster_part_start bpb c
        .ok ((start * sector_size, (start + bpb.sectors_per_cluster) * sector_size) :: parts)

/-- `Fat12::create_frangemented_subdisk` from
`src/src/filesystems/fat/fat12/mod.rs`: builds the parts list and hands it
to the registry's `fragmented_subdisk`. -/
def Fat12.create_frangemented_subdisk (bpb : BiosParameterBlock) (sector_size : Nat)
    (st : WrapperState) (infos : DiskInfos) (clusters : List Nat)
    (permissions : Permissions) :
    Except DiskErr (Except FatError (FragmentedSubDisk × WrapperState)) :=
  match fat12BuildParts bpb sector_size clusters with
  | .error e => .ok (.error e)
  | .ok parts =>
    match DiskWrapper.fragmented_subdisk st infos parts permissions with
    | .error e => .error e
    | .ok v => .ok (.ok v)

/-- A concrete FAT geometry exposing the C7 mismatch: like `c6bpb` (one
reserved sector, two FATs of three sectors, 32 root entries = 2 root
directory sectors, one sector per cluster, 100 total sectors), so
`data_start_sector = 1 + 6 + 2 = 9` while the fragmented-subdisk start for
cluster 2 is `1 + 6 = 7`. -/
def c7bpb : BiosParameterBlock := c6bpb

/-- C7: the claim says the byte range `create_fragmented_subdisk` registers
for cluster `c` equals the range of `get_cluster(c)` on both variants.
Fat16 satisfies it (its part start adds the root-directory sectors, and
`(root × 32) / ss` equals the rounded-up root-directory size when the BPB
is sector-aligned).  Fat12 does not: its part start omits the
root-directory term, so for cluster 2 of the geometry `c7bpb`,
`get_cluster` spans bytes `[4608, 5120)` while `create_frangemented_subdisk`
registers `[3584, 4096)`. -/
theorem c7_fat12_cluster_ranges_disagree :
    Fat12.get_cluster c7bpb 512 ⟨[], []⟩ infosBig 2 .read_only
      = .ok (.ok (⟨4608, 5120, .any, .read_only⟩, ⟨[(4608, 5120)], []⟩))
    ∧ Fat12.create_frangemented_subdisk c7bpb 512 ⟨[], []⟩ infosBig [2] .read_only
      = .ok (.ok (⟨[(3584, 4096)], 512, .any, .read_only⟩, ⟨[(3584, 4096)], []⟩))
    ∧ Fat12.cluster_part_start c7bpb 2 ≠ clusterFirstSector c7bpb 2
    ∧ (∀ (bpb : BiosParameterBlock) (c : Nat),
        bpb.bytes_per_sector ≠ 0 →
        (bpb.root_entries_count * 32) % bpb.bytes_per_sector = 0 →
        Fat16.cluster_part_start bpb bpb.bytes_per_sector c = clusterFirstSector bpb c) := by
  refine ⟨rfl, rfl, by decide, ?_⟩
  intro bpb c hne hdvd
  unfold Fat16.cluster_part_start clusterFirstSector BiosParameterBlock.data_start_sector
  unfold BiosParameterBlock.root_dir_sectors divCeil
  obtain ⟨k, hk⟩ := Nat.dvd_of_mod_eq_zero hdvd
  rw [hk]
  have hpos : 0 < bpb.bytes_per_sector := Nat.pos_of_ne_zero hne
  have h1 : bpb.bytes_per_sector * k + bpb.bytes_per_sector - 1
      = bpb.bytes_per_sector * k + (bpb.bytes_per_sector - 1) := by omega
  rw [h1, Nat.mul_div_cancel_left _ hpos, Nat.mul_add_div hpos,
    Nat.div_eq_of_lt (show bpb.bytes_per_sector - 1 < bpb.bytes_per_sector by omega),
    Nat.mul_comm bpb.fat_size bpb.number_of_fats, Nat.add_zero]

/-- Witness for the Fat16 half of C7 at the concrete geometry `c7bpb`
(whose `root_entries_count * 32 = 1024` is a multiple of its 512-byte
sectors): both computations place cluster 5 at sector 12. -/
theorem c7_fat16_agreement_witness :
    c7bpb.bytes_per_sector ≠ 0
    ∧ (c7bpb.root_entries_count * 32) % c7bpb.bytes_per_sector = 0
    ∧ Fat16.cluster_part_start c7bpb c7bpb.bytes_per_sector 5 = clusterFirstSector c7bpb 5 :=
  ⟨by decide, by decide,
   c7_fat12_cluster_ranges_disagree.2.2.2 c7bpb 5 (by decide) (by decide)⟩

/-- `MemDisk::read_sector` from `src/src/memdisk.rs`: permission check,
sector-size support check — and then an UNCHECKED slice
`content[sector*len .. (sector+1)*len]`, which panics (modelled as `none`)
whenever the range reaches beyond the content length.  There is no
`InvalidSectorIndex` path. -/
def MemDisk.read_sector (policy : SectorSize) (permissions : Permissions)
    (content : Nat → Nat) (size sector buf_len : Nat) :
    Option (Except DiskErr (List Nat)) :=
  if !permissions.read then some (.error (.invalidPermission permissions))
  else if !(policy.is_supported buf_len size) then
    some (.error (.invalidSectorSize buf_len policy 0))
  else if (sector + 1) * buf_len ≤ size then
    some (.ok (readSector content buf_len sector))
  else none

/-- `MemDisk::write_sector` from `src/src/memdisk.rs`: permission check,
sector-size support check, then an unchecked slice assignment that panics
(`none`) when out of range. -/
def MemDisk.write_sector (policy : SectorSize) (permissions : Permissions)
    (content : Nat → Nat) (size sector : Nat) (buf : List Nat) :
    Option (Except DiskErr (Nat → Nat)) :=
  if !permissions.write then some (.error (.invalidPermission permissions))
  else if !(policy.is_supported buf.length size) then
    some (.error (.invalidSectorSize buf.length policy 0))
  else if (sector + 1) * buf.length ≤ size then
    some (.ok (writeSector content buf.length sector buf))
  else none

set_option maxRecDepth 10000 in
/-- C8: the claim says every public entry point returns an error value (not
a panic) on adversarial input, naming a huge sector index among the
examples.  The code refutes it: `MemDisk::read_sector`/`write_sector`
validate permission and buffer size but never the index, then slice
`content[sector*len..(sector+1)*len]` — on a 512-byte `MemDisk`, sector
index 2 with a 512-byte buffer panics (slice `1024..1536` out of range)
instead of returning `InvalidSectorIndex`.  (`FatFS::ls_dir` likewise ends
in an unconditional `todo!()`, and `SubDisk` read/write divide by a
zero-length buffer; the MemDisk case is the one modelled.) -/
theorem c8_memdisk_panics_on_huge_index :
    MemDisk.read_sector (.allOf [512]) .read_write (fun _ => 0) 512 2 512 = none
    ∧ MemDisk.write_sector (.allOf [512]) .read_write (fun _ => 0) 512 2
        (List.replicate 512 0) = none := by
  refine ⟨rfl, rfl⟩

/-- The fragment-search loop of `FragmentedSubDisk::read_sector` /
`write_sector` (`src/src/wrappers.rs` lines 403-422 and 461-480): walks the
parts; a misaligned part aborts with `InvalidSectorSize` (carrying
`parts[0].0`); the first part whose sector range contains the request sets
the offset and breaks; if no part does, the offset keeps its initial value
0.  Returns the final `offset`. -/
def fragLocate (pol : SectorSize) (p0 sector_size sector : Nat) :
    List (Nat × Nat) → Nat → Except DiskErr Nat
  | [], _ => .ok 0
  | (start, stop) :: rest, current_sector =>
    if (stop - start) % sector_size ≠ 0 ∨ start % sector_size ≠ 0 then
      .error (.invalidSectorSize sector_size pol p0)
    else if current_sector + (stop - start) / sector_size > sector then
      .ok (start + (sector - current_sector) * sector_size)
    else fragLocate pol p0 sector_size sector rest
      (current_sector + (stop - start) / sector_size)

/-- `FragmentedSubDisk::read_sector` from `src/src/wrappers.rs`, up to the
final forward to the backing disk: the returned value is the parent sector
index passed to `parent.disk.lock().read_sector` (`offset / sector_size`).
`parentAlive` models whether the weak handle upgrades. -/
def FragmentedSubDisk.read_sector (f : FragmentedSubDisk) (parentAlive : Bool)
    (sector buf_len : Nat) : Except DiskErr Nat :=
  if !parentAlive then .error .unreachableDisk
  else if !f.permissions.read then .error (.invalidPermission f.permissions)
  else if f.parts.isEmpty then .error (.invalidSectorIndex sector 0)
  else if !(f.sector_size.is_supported buf_len f.size) then
    .error (.invalidSectorSize buf_len f.sector_size (f.parts.headD (0, 0)).1)
  else
    match fragLocate f.sector_size (f.parts.headD (0, 0)).1 buf_len sector f.parts 0 with
    | .error e => .error e
    | .ok offset => .ok (offset / buf_len)

/-- `FragmentedSubDisk::write_sector` from `src/src/wrappers.rs`, modelled
like `read_sector` (the two bodies are identical apart from the permission
bit and the final forward). -/
def FragmentedSubDisk.write_sector (f : FragmentedSubDisk) (parentAlive : Bool)
    (sector buf_len : Nat) : Except DiskErr Nat :=
  if !parentAlive then .error .unreachableDisk
  else if !f.permissions.write then .error (.invalidPermission f.permissions)
  else if f.parts.isEmpty then .error (.invalidSectorIndex sector 0)
  else if !(f.sector_size.is_supported buf_len f.size) then
    .error (.invalidSectorSize buf_len f.sector_size (f.parts.headD (0, 0)).1)
  else
    match fragLocate f.sector_size (f.parts.headD (0, 0)).1 buf_len sector f.parts 0 with
    | .error e => .error e
    | .ok offset => .ok (offset / buf_len)

/-- Total number of `buf_len`-sized sectors of a fragmented view's parts
(the loop's final `current_sector`). -/
def fragTotalSectors (buf_len : Nat) (parts : List (Nat × Nat)) : Nat :=
  (parts.map fun p => (p.2 - p.1) / buf_len).sum

theorem fragLocate_out_of_range (pol : SectorSize) (p0 sector_size sector : Nat) :
    ∀ (parts : List (Nat × Nat)) (cur : Nat),
      (∀ p ∈ parts, (p.2 - p.1) % sector_size = 0 ∧ p.1 % sector_size = 0) →
      cur + fragTotalSectors sector_size parts ≤ sector →
      fragLocate pol p0 sector_size sector parts cur = .ok 0 := by
  intro parts
  induction parts with
  | nil => intro cur _ _; rfl
  | cons p rest ih =>
    intro cur halign hbig
    obtain ⟨start, stop⟩ := p
    obtain ⟨h1, h2⟩ := halign (start, stop) (List.mem_cons_self _ rest)
    have htot : fragTotalSectors sector_size ((start, stop) :: rest)
        = (stop - start) / sector_size + fragTotalSectors sector_size rest := by
      unfold fragTotalSectors
      simp
    unfold fragLocate
    rw [if_neg (by simp_all)]
    rw [if_neg (by simp only [not_lt]; omega)]
    exact ih _ (fun q hq => halign q (List.mem_cons_of_mem _ hq)) (by omega)

/-- C10: for a live fragmented view with a non-empty parts list, a
supported buffer size, aligned fragments and the matching permission, a
request whose sector index is at or past the view's total sector count is
not rejected with `InvalidSectorIndex`: the search loop falls through with
`offset = 0` and the request is forwarded to the backing disk as a
read/write of parent sector `0 / buf_len = 0`. -/
theorem c10_out_of_range_forwarded_to_sector_zero (f : FragmentedSubDisk)
    (buf_len sector : Nat)
    (hne : f.parts ≠ [])
    (hsup : f.sector_size.is_supported buf_len f.size = true)
    (halign : ∀ p ∈ f.parts, (p.2 - p.1) % buf_len = 0 ∧ p.1 % buf_len = 0)
    (hbig : fragTotalSectors buf_len f.parts ≤ sector) :
    (f.permissions.read = true → FragmentedSubDisk.read_sector f true sector buf_len = .ok 0)
    ∧ (f.permissions.write = true →
        FragmentedSubDisk.write_sector f true sector buf_len = .ok 0) := by
  have hloc : fragLocate f.sector_size (f.parts.headD (0, 0)).1 buf_len sector f.parts 0
      = .ok 0 := fragLocate_out_of_range _ _ _ _ f.parts 0 halign (by omega)
  have hemp : f.parts.isEmpty = false := by
    cases hp : f.parts with
    | nil => exact absurd hp hne
    | cons a l => rfl
  constructor
  · intro hr
    unfold FragmentedSubDisk.read_sector
    rw [hr, hemp, hsup]
    simp only [Bool.not_true, Bool.false_eq_true, if_false, if_true]
    rw [hloc]
    simp [Nat.zero_div]
  · intro hw
    unfold FragmentedSubDisk.write_sector
    rw [hw, hemp, hsup]
    simp only [Bool.not_true, Bool.false_eq_true, if_false, if_true]
    rw [hloc]
    simp [Nat.zero_div]

/-- Witness for C10: a read/write fragmented view of the single part
`[(0, 512))` under 512-byte sectors has exactly one sector, yet reading or
writing sector 5 is forwarded to parent sector 0. -/
theorem c10_witness :
    ((⟨[(0, 512)], 512, .any, .read_write⟩ : FragmentedSubDisk).parts ≠ [])
    ∧ FragmentedSubDisk.read_sector ⟨[(0, 512)], 512, .any, .read_write⟩ true 5 512 = .ok 0
    ∧ FragmentedSubDisk.write_sector ⟨[(0, 512)], 512, .any, .read_write⟩ true 5 512 = .ok 0 :=
  ⟨by decide,
   (c10_out_of_range_forwarded_to_sector_zero ⟨[(0, 512)], 512, .any, .read_write⟩ 512 5
     (by decide) (by decide) (by decide) (by decide)).1 rfl,
   (c10_out_of_range_forwarded_to_sector_zero ⟨[(0, 512)], 512, .any, .read_write⟩ 512 5
     (by decide) (by decide) (by decide) (by decide)).2 rfl⟩

/-- Little-endian 32-bit encoding (`u32::to_le_bytes`). -/
def le32 (n : Nat) : List Nat :=
  [n % 256, n / 256 % 256, n / 65536 % 256, n / 16777216 % 256]

/-- Little-endian 32-bit decoding (`u32::from_le_bytes`) of four bytes of
`buf` starting at `off`. -/
def readLe32 (buf : List Nat) (off : Nat) : Nat :=
  buf.getD off 0 + 256 * buf.getD (off + 1) 0 + 65536 * buf.getD (off + 2) 0
    + 16777216 * buf.getD (off + 3) 0

/-- `MbrEntry` from `src/src/partition_tables/mbr/mod.rs` (the CHS fields
are three bytes each). -/
structure MbrEntry where
  status : Nat
  chs_first : List Nat
  partition_type : Nat
  chs_last : List Nat
  lba_first : Nat
  sectors : Nat
deriving DecidableEq, Repr

/-- `MbrEntry::empty` from `src/src/partition_tables/mbr/mod.rs`. -/
def MbrEntry.empty : MbrEntry := ⟨0, [0, 0, 0], 0, [0, 0, 0], 0, 0⟩

/-- `MbrEntry::write_to` from `src/src/partition_tables/mbr/mod.rs`: the 16
on-disk bytes of an entry. -/
def MbrEntry.write_to (e : MbrEntry) : List Nat :=
  [e.status] ++ e.chs_first ++ [e.partition_type] ++ e.chs_last
    ++ le32 e.lba_first ++ le32 e.sectors

/-- `MbrEntry::read_from` from `src/src/partition_tables/mbr/mod.rs`
(`buf` is the 16-byte slice starting at the entry). -/
def MbrEntry.read_from (buf : List Nat) : MbrEntry :=
  ⟨buf.getD 0 0, [buf.getD 1 0, buf.getD 2 0, buf.getD 3 0], buf.getD 4 0,
   [buf.getD 5 0, buf.getD 6 0, buf.getD 7 0], readLe32 buf 8, readLe32 buf 12⟩

/-- `RawMbr` from `src/src/partition_tables/mbr/mod.rs`: 446 bootstrap
bytes, four entries, a 16-bit signature. -/
structure RawMbr where
  bootstrap : List Nat
  partitions : List MbrEntry
  signature : Nat
deriving DecidableEq, Repr

/-- `RawMbr::to_bytes` from `src/src/partition_tables/mbr/mod.rs`: the
canonical 512 bytes — bootstrap, the four 16-byte entries at offset 446,
the signature little-endian at 510. -/
def RawMbr.to_bytes (m : RawMbr) : List Nat :=
  m.bootstrap ++ (m.partitions.map MbrEntry.write_to).flatten
    ++ [m.signature % 256, m.signature / 256 % 256]

/-- `RawMbr::from_bytes` from `src/src/partition_tables/mbr/mod.rs`:
requires at least 512 bytes, reads the four entries at offsets
446/462/478/494 and the signature at 510-511. -/
def RawMbr.from_bytes (buf : List Nat) : Option RawMbr :=
  if buf.length < 512 then none
  else some
    { bootstrap := buf.take 446,
      partitions := [MbrEntry.read_from (buf.drop 446), MbrEntry.read_from (buf.drop 462),
                     MbrEntry.read_from (buf.drop 478), MbrEntry.read_from (buf.drop 494)],
      signature := buf.getD 510 0 + 256 * buf.getD 511 0 }

/-- The zeroed table built by `GenericMbr::new`
(`src/src/partition_tables/mbr/generic_mbr.rs`): zero bootstrap, four empty
entries, signature `0xAA55`. -/
def rawMbrNew : RawMbr :=
  ⟨List.replicate 446 0, [MbrEntry.empty, MbrEntry.empty, MbrEntry.empty, MbrEntry.empty],
   0xAA55⟩

/-- `GenericMbr::new` from `src/src/partition_tables/mbr/generic_mbr.rs`:
resolves the sector size (`minimal_ge(512)` of the disk's policy when not
given) and pairs it with the fresh zeroed table. -/
def GenericMbr.new (policy : SectorSize) (sector_size? : Option Nat) :
    Except DiskErr (RawMbr × Nat) :=
  match sector_size? with
  | some v => .ok (rawMbrNew, v)
  | none =>
    match policy.minimal_ge 512 with
    | none => .error .unsupportedDiskSectorSize
    | some v => .ok (rawMbrNew, v)

/-- `PartitionInfos` from `src/src/partition_tables/mbr/mod.rs`. -/
structure PartitionInfos where
  lba_start : Nat
  size : Nat
  sector_size : Nat
  partition_type : Nat
deriving DecidableEq, Repr

/-- `GenericMbr::partition_infos` from
`src/src/partition_tables/mbr/generic_mbr.rs`: `self.raw.partitions.get(i)`
mapped to the infos record — `None` only when `i ≥ 4`. -/
def GenericMbr.partition_infos (raw : RawMbr) (sector_size i : Nat) :
    Option PartitionInfos :=
  (raw.partitions.get? i).map fun v => ⟨v.lba_first, v.sectors, sector_size, v.partition_type⟩

/-- `GenericMbr::create_partition` from
`src/src/partition_tables/mbr/generic_mbr.rs`: index bound, overlap test
against each existing entry, `start == 0` rejection, end-of-disk bound
(`InvalidSectorIndex`), u32 range checks, then the entry is overwritten
with status `0x80` and cleared CHS fields. -/
def GenericMbr.create_partition (raw : RawMbr) (sector_size disk_size : Nat)
    (partition_index start size partition_type : Nat) : Except DiskErr RawMbr :=
  if partition_index ≥ 4 then .error .invalidPartitionIndex
  else
    let stop := start + size
    if raw.partitions.any (fun p =>
        (decide (p.lba_first ≤ start) && decide (start < p.lba_first + p.sectors))
        || (decide (p.lba_first < stop) && decide (stop ≤ p.lba_first + p.sectors))) then
      .error .spaceAlreadyInUse
    else if start = 0 then .error .spaceAlreadyInUse
    else if stop > disk_size / sector_size then
      .error (.invalidSectorIndex stop (disk_size / sector_size))
    else if start > 0xFFFFFFFF then .error .outOfRangeValue
    else if size > 0xFFFFFFFF then .error .outOfRangeValue
    else
      let entry : MbrEntry := ⟨0x80, [0, 0, 0], partition_type, [0, 0, 0], start, size⟩
      .ok { raw with partitions := raw.partitions.set partition_index entry }

/-- `DiskWrapper::write_sector` over a `MemDisk` backing store: the wrapper
refuses `Busy` on loan overlap, then the MemDisk validates and writes
(panic — `none` — on an out-of-range slice). -/
def wrapperMemWrite (st : WrapperState) (policy : SectorSize) (permissions : Permissions)
    (content : Nat → Nat) (size sector : Nat) (buf : List Nat) :
    Option (Except DiskErr (Nat → Nat)) :=
  let start := sector * buf.length
  let stop := start + buf.length
  if DiskWrapper.is_w_borrowed st start stop || DiskWrapper.is_r_borrowed st start stop then
    some (.error .busy)
  else MemDisk.write_sector policy permissions content size sector buf

/-- `RawMbr::write_to_disk` from `src/src/partition_tables/mbr/mod.rs`,
with the disk being a `DiskWrapper` over a `MemDisk` (the `GenericMbr.write`
path): picks `minimal_ge(512)` as buffer size, zero-pads the 512 serialized
bytes to it (`sector[..512].copy_from_slice` panics — `none` — if the
buffer is smaller) and writes sector 0. -/
def RawMbr.write_to_disk (m : RawMbr) (st : WrapperState) (policy : SectorSize)
    (permissions : Permissions) (content : Nat → Nat) (size : Nat) :
    Option (Except DiskErr (Nat → Nat)) :=
  match policy.minimal_ge 512 with
  | none => some (.error .unsupportedDiskSectorSize)
  | some ss =>
    if ss < 512 then none
    else wrapperMemWrite st policy permissions content size 0
      (m.to_bytes ++ List.replicate (ss - 512) 0)

/-- `RawMbr::read_from_disk` from `src/src/partition_tables/mbr/mod.rs`,
reading directly from a `MemDisk` (as `GenericMbr::read_from_disk` does,
before wrapping): reads sector 0 with a `minimal_ge(512)`-sized buffer and
decodes it (`from_bytes(..).unwrap()` — the `none` case models the panic on
a short buffer). -/
def RawMbr.read_from_disk (policy : SectorSize) (permissions : Permissions)
    (content : Nat → Nat) (size : Nat) : Option (Except DiskErr RawMbr) :=
  match policy.minimal_ge 512 with
  | none => some (.error .unsupportedDiskSectorSize)
  | some ss =>
    match MemDisk.read_sector policy permissions content size 0 ss with
    | none => none
    | some (.error e) => some (.error e)
    | some (.ok buf) =>
      match RawMbr.from_bytes buf with
      | none => none
      | some raw => some (.ok raw)

/-- `GenericMbr::read_from_disk` from
`src/src/partition_tables/mbr/generic_mbr.rs`: resolves the sector size,
reads the raw table, and returns `None` unless the signature is
`0xAA55`. -/
def GenericMbr.read_from_disk (policy : SectorSize) (permissions : Permissions)
    (content : Nat → Nat) (size : Nat) (sector_size? : Option Nat) :
    Option (Except DiskErr (Option (RawMbr × Nat))) :=
  let ss? := match sector_size? with
    | some v => some v
    | none => policy.minimal_ge 512
  match ss? with
  | none => some (.error .unsupportedDiskSectorSize)
  | some ss =>
    match RawMbr.read_from_disk policy permissions content size with
    | none => none
    | some (.error e) => some (.error e)
    | some (.ok raw) =>
      if raw.signature = 0xAA55 then some (.ok (some (raw, ss))) else some (.ok none)

/-- Scenario S1's backing store: a 64 MiB in-memory disk supporting only
512-byte sectors, initially zeroed. -/
def s1policy : SectorSize := .allOf [512]

/-- 64 MiB. -/
def s1size : Nat := 67108864

/-- Scenario S1 after the failed `create_partition`: write the (unchanged,
empty) table through the registry, re-open with
`GenericMbr::read_from_disk`, and query `partition_infos(i)`.  `none`
means some step panicked or failed. -/
def s1Infos (i : Nat) : Option (Option PartitionInfos) :=
  match RawMbr.write_to_disk rawMbrNew ⟨[], []⟩ s1policy .read_write (fun _ => 0) s1size with
  | some (.ok content1) =>
    match GenericMbr.read_from_disk s1policy .read_write content1 s1size none with
    | some (.ok (some m)) => some (GenericMbr.partition_infos m.1 m.2 i)
    | _ => none
  | _ => none

set_option maxRecDepth 1000000 in
/-- C9 counterexample: in scenario S1 the claim expects
`partition_infos(0) = {lba_start=2048, size=131072, sector_size=512,
partition_type=0x06}` and `partition_infos(1..3)` absent.  On the code,
`create_partition(0, 2048, 131072, 0x06)` fails (2048 + 131072 sectors
exceed the disk's 131072), so the re-opened table is empty — and
`partition_infos` returns `Some` of the empty entry for every index below
4, never absent. -/
theorem c9_s1_expectations_false :
    GenericMbr.create_partition rawMbrNew 512 s1size 0 2048 131072 6
      = .error (.invalidSectorIndex 133120 131072)
    ∧ s1Infos 0 ≠ some (some ⟨2048, 131072, 512, 6⟩)
    ∧ s1Infos 1 ≠ some none := by
  refine ⟨by rfl, ?_, ?_⟩
  · show s1Infos 0 ≠ some (some ⟨2048, 131072, 512, 6⟩)
    have h0 : s1Infos 0 = some (some ⟨0, 0, 512, 0⟩) := by rfl
    rw [h0]
    intro hcontra
    simp only [Option.some.injEq, PartitionInfos.mk.injEq] at hcontra
    omega
  · show s1Infos 1 ≠ some none
    have h1 : s1Infos 1 = some (some ⟨0, 0, 512, 0⟩) := by rfl
    rw [h1]
    intro hcontra
    simp at hcontra

set_option maxRecDepth 1000000 in
/-- C9 amended: in scenario S1 `create_partition(0, 2048, 131072, 0x06)`
fails with `InvalidSectorIndex` (end sector 133120 exceeds the 131072
total), the table written and re-read is the empty one, `partition_infos`
of every index 0..3 is `Some` of the empty entry
`{lba_start=0, size=0, sector_size=512, partition_type=0}`, and only
`partition_infos(4)` (indices ≥ 4) is absent. -/
theorem c9_s1_amended :
    GenericMbr.create_partition rawMbrNew 512 s1size 0 2048 131072 6
      = .error (.invalidSectorIndex 133120 131072)
    ∧ s1Infos 0 = some (some ⟨0, 0, 512, 0⟩)
    ∧ s1Infos 1 = some (some ⟨0, 0, 512, 0⟩)
    ∧ s1Infos 2 = some (some ⟨0, 0, 512, 0⟩)
    ∧ s1Infos 3 = some (some ⟨0, 0, 512, 0⟩)
    ∧ s1Infos 4 = some none := by
  refine ⟨by rfl, by rfl, by rfl, by rfl, by rfl, by rfl⟩

end Partfs
